import Mathlib

/-!
Verification of the mapaZZZ USSD server (`src/server.js`).

The file shallowly embeds the program: the JavaScript helper functions
(`sendTwilioSms`, `getMalariaProbabilityJS`, `getZoneSolutionJS`,
`formatZonesForUSSD`, `formatReportsForUSSD`) become pure Lean functions,
and the `POST /ussd` handler becomes `ussdStep`, an explicit state-passing
function from the stored session (for the request's session key), the
request fields and the outcomes of the two external services to the
response text, the new stored session (`none` = deleted) and the list of
SMS sends attempted by the handler.  JavaScript strings are Lean `String`s
(lists of characters); all string primitives used by the source
(`split`, `includes`, `trim`, `toLowerCase`, `substring`, truthiness)
are embedded below as list-level functions so that every theorem can be
evaluated by the kernel.
-/

/-- Embeds JavaScript string truthiness for optional fields:
`undefined`/`null`/`""` are falsy, every other string is truthy. -/
def optTruthy : Option String → Bool
  | none => false
  | some s => s ≠ ""

/-- The string value of an optional field (`""` when absent). -/
def optVal : Option String → String
  | none => ""
  | some s => s

/-- Embeds the JavaScript idiom `value || defaultValue` on string fields:
the default is used when the field is `undefined`/`null`/`""`. -/
def jsOr (s : Option String) (d : String) : String :=
  match s with
  | none => d
  | some v => if v = "" then d else v

/-- Embeds `String.prototype.toLowerCase` (character-wise lowercasing). -/
def jsToLower (s : String) : String :=
  ⟨s.data.map Char.toLower⟩

/-- Embeds `String.prototype.trim`: drop leading and trailing whitespace. -/
def jsTrim (s : String) : String :=
  ⟨((s.data.dropWhile Char.isWhitespace).reverse.dropWhile Char.isWhitespace).reverse⟩

/-- Embeds `String.prototype.substring(0, n)`. -/
def jsSubstringTo (s : String) (n : Nat) : String :=
  ⟨s.data.take n⟩

/-- Decides whether `needle` is an initial segment of `hay`. -/
def isPrefixList : List Char → List Char → Bool
  | [], _ => true
  | _ :: _, [] => false
  | a :: as, b :: bs => a == b && isPrefixList as bs

/-- Embeds `hay.includes(needle)` on character lists. -/
def listHasSub : List Char → List Char → Bool
  | [], needle => needle.isEmpty
  | c :: t, needle => isPrefixList needle (c :: t) || listHasSub t needle

/-- Embeds `hay.includes(needle)` on strings. -/
def hasSubStr (hay needle : String) : Bool :=
  listHasSub hay.data needle.data

/-- `strStarts s pre` holds when the string `s` begins with `pre`
(used to state the `CON `/`END ` response-type discipline). -/
def strStarts (s pre : String) : Bool :=
  isPrefixList pre.data s.data

/-- Embeds `text.split('*')`: splits a character list at every `'*'`,
keeping empty segments, exactly as JavaScript `String.prototype.split`
does for a one-character separator. -/
def splitStar : List Char → List (List Char)
  | [] => [[]]
  | c :: cs =>
    if c = '*' then [] :: splitStar cs
    else
      match splitStar cs with
      | [] => [[c]]
      | g :: gs => (c :: g) :: gs

/-- Embeds the handler's input extraction (`src/server.js` lines 246-247):
`text ? (text.includes('*') ? text.split('*').pop() : text) : ''`.
`none` models an absent `text` field. -/
def extractLastInput (text : Option String) : String :=
  match text with
  | none => ""
  | some t =>
    if t.data = [] then ""
    else if '*' ∈ t.data then ⟨(splitStar t.data).getLastD []⟩
    else t

/-- Outcome of the one provider call `twilioClient.messages.create`:
either a delivery (with an SID) or a thrown error carrying a numeric
code and a message. -/
inductive TwilioOutcome where
  | sent (sid : String)
  | errCode (code : Nat) (message : String)

/-- What `sendTwilioSms` produces in the embedding: the user-displayable
string it resolves to, plus whether the provider call was attempted. -/
structure SmsSendResult where
  msg : String
  providerCalled : Bool
  deriving DecidableEq

/-- Embeds the regular expression test on the destination number,
`/^\+?[1-9]\d{1,14}$/.test(dest)` (`src/server.js` line 65): an optional
leading `+`, then a first digit in `1`-`9`, then 1 to 14 further digits. -/
def e164Test (s : String) : Bool :=
  let l := match s.data with
    | '+' :: rest => rest
    | l => l
  match l with
  | [] => false
  | d :: rest =>
    ('1' ≤ d && d ≤ '9') && (1 ≤ rest.length && rest.length ≤ 14)
      && rest.all fun c => '0' ≤ c && c ≤ '9'

/-- Embeds `sendTwilioSms` (`src/server.js` lines 56-90).  `twilioInit`
models whether the Twilio client was initialized; `outcome` models the
result of the provider call, consulted only when the call is reached;
`dest` is the source's `to` parameter. -/
def sendTwilioSms (twilioInit : Bool) (outcome : TwilioOutcome) (dest body : String) :
    SmsSendResult :=
  if twilioInit = false then
    ⟨"Serviço SMS indisponível. Verifique as credenciais Twilio.", false⟩
  else if dest = "" ∨ body = "" then
    ⟨"Número do destinatário ou mensagem em falta.", false⟩
  else if e164Test dest = false then
    ⟨"Número de destino (" ++ dest ++ ") inválido. Use formato internacional (ex: +244XXXXXXXXX).", false⟩
  else
    match outcome with
    | .sent _ => ⟨"SMS enviado para " ++ dest ++ "!", true⟩
    | .errCode code errMsg =>
      if code = 21211 then
        ⟨"Falha ao enviar SMS: Número de destino (" ++ dest ++ ") inválido.", true⟩
      else if code = 21610 ∨ code = 21612 ∨ code = 21614 then
        ⟨"Falha ao enviar SMS: O número " ++ dest ++ " não pode receber mensagens deste remetente.", true⟩
      else if code = 21408 then
        ⟨"Falha ao enviar SMS: Não há permissão para enviar SMS para a região do número " ++ dest ++ ".", true⟩
      else
        ⟨"Falha ao enviar SMS para " ++ dest ++ ". (" ++ (if errMsg = "" then "Erro desconhecido" else errMsg) ++ ")", true⟩

/-- Outcome of one `ai.models.generateContent` call: a response whose
`.text` is the given string (possibly empty), or a thrown error. -/
inductive AiOutcome where
  | success (text : String)
  | thrown

/-- Embeds `getMalariaProbabilityJS` (`src/server.js` lines 94-118).
`aiInit` models whether the Gemini client was initialized. -/
def getMalariaProbabilityJS (aiInit : Bool) (outcome : AiOutcome)
    (symptomsDescription : String) : String :=
  if aiInit = false then
    "Serviço de IA indisponível. Verifique a configuração da API_KEY."
  else if jsTrim symptomsDescription = "" then
    "Nenhum sintoma fornecido para análise."
  else
    match outcome with
    | .success t => if t = "" then "Não foi possível obter uma análise dos sintomas." else t
    | .thrown => "Erro ao analisar sintomas. Tente mais tarde."

/-- Embeds `getZoneSolutionJS` (`src/server.js` lines 121-142). -/
def getZoneSolutionJS (aiInit : Bool) (outcome : AiOutcome)
    (problemDescription : String) : String :=
  if aiInit = false then
    "Serviço de IA indisponível. Verifique a configuração da API_KEY."
  else if jsTrim problemDescription = "" then
    "Nenhuma descrição do problema fornecida."
  else
    match outcome with
    | .success t => if t = "" then "Não foi possível obter uma sugestão." else t
    | .thrown => "Erro ao obter sugestão. Tente mais tarde."

/-- A zone record as consumed by `formatZonesForUSSD`: API data whose
fields may be absent. -/
structure Zone where
  location : Option String
  riskLevel : Option Nat

/-- Embeds the map `riskLevelStringToNumeric` (`src/server.js` 153-157). -/
def riskLevelStringToNumeric (s : String) : Option Nat :=
  if s = "alto" then some 3
  else if s = "médio" then some 2
  else if s = "baixo" then some 1
  else none

/-- Embeds the display lookup
`riskLevelNumericToString[zone.riskLevel] || zone.riskLevel || 'N/D'`. -/
def displayRisk (z : Zone) : String :=
  match z.riskLevel with
  | some 3 => "Alto"
  | some 2 => "Médio"
  | some 1 => "Baixo"
  | some n => if n = 0 then "N/D" else toString n
  | none => "N/D"

/-- Embeds the `filteredZones` computation of `formatZonesForUSSD`
(`src/server.js` lines 165-175). -/
def filteredZonesOf (zones : List Zone) (riskLevelFilter : Option String) : List Zone :=
  if optTruthy riskLevelFilter then
    match riskLevelStringToNumeric (jsToLower (optVal riskLevelFilter)) with
    | some n => zones.filter fun z => z.riskLevel == some n
    | none => []
  else zones

/-- Embeds the `zonesToShow` computation of `formatZonesForUSSD`
(`src/server.js` lines 184-185): at most `MAX_ZONES_TO_SHOW = 5`
entries are taken for display. -/
def zonesToShowOf (zones : List Zone) (riskLevelFilter : Option String) : List Zone :=
  (filteredZonesOf zones riskLevelFilter).take 5

/-- One displayed zone line (`src/server.js` lines 187-190). -/
def zoneLine (i : Nat) (z : Zone) : String :=
  toString (i + 1) ++ ". " ++ jsOr z.location "Local Desconhecido" ++ " (" ++ displayRisk z ++ ")\n"

/-- Embeds `formatZonesForUSSD` (`src/server.js` lines 145-195). -/
def formatZonesForUSSD (zones : List Zone) (riskLevelFilter : Option String) : String :=
  if zones.isEmpty then
    "Nenhuma zona de risco "
      ++ (if optTruthy riskLevelFilter then jsToLower (optVal riskLevelFilter) ++ " " else "")
      ++ "encontrada."
  else
    let filteredZones := filteredZonesOf zones riskLevelFilter
    if filteredZones.isEmpty then
      "Nenhuma zona de risco "
        ++ (if optTruthy riskLevelFilter then jsToLower (optVal riskLevelFilter) ++ " " else "")
        ++ "encontrada."
    else
      let header := if optTruthy riskLevelFilter then
          "Zonas de Risco " ++ optVal riskLevelFilter ++ ":\n"
        else "Zonas de Risco (Todas):\n"
      let zonesToShow := zonesToShowOf zones riskLevelFilter
      let message := zonesToShow.enum.foldl (fun acc iz => acc ++ zoneLine iz.1 iz.2) header
      let message := if zonesToShow.length < filteredZones.length then
          message ++ "Mais " ++ toString (filteredZones.length - zonesToShow.length) ++ " zonas disponíveis."
        else message
      jsTrim message

/-- A report record as consumed by `formatReportsForUSSD`. -/
structure Report where
  title : Option String
  description : Option String
  riskLevel : Option String
  municipality : Option String

/-- Embeds the `filteredReports` computation of `formatReportsForUSSD`
(`src/server.js` lines 201-204). -/
def filteredReportsOf (reports : List Report) (municipalityFilter : Option String) :
    List Report :=
  if optTruthy municipalityFilter
      ∧ jsToLower (optVal municipalityFilter) ≠ "outro"
      ∧ jsToLower (optVal municipalityFilter) ≠ "todos" then
    reports.filter fun r =>
      optTruthy r.municipality
        && (jsToLower (optVal r.municipality) == jsToLower (optVal municipalityFilter))
  else reports

/-- Embeds the `reportsToShow` computation (`src/server.js` line 211):
`filteredReports.slice(0, 1)`, one detailed report at most. -/
def reportsToShowOf (reports : List Report) (municipalityFilter : Option String) :
    List Report :=
  (filteredReportsOf reports municipalityFilter).take 1

/-- One displayed report entry (`src/server.js` lines 212-216), including
the description truncation `if (desc.length > 70) desc = desc.substring(0, 67) + "..."`. -/
def reportEntry (r : Report) : String :=
  let desc := jsOr r.description "Sem descrição."
  let desc := if desc.data.length > 70 then jsSubstringTo desc 67 ++ "..." else desc
  jsOr r.title "N/A" ++ ": " ++ desc ++ " (Risco: " ++ jsOr r.riskLevel "N/D" ++ ")\n"

/-- Embeds `formatReportsForUSSD` (`src/server.js` lines 197-221). -/
def formatReportsForUSSD (reports : List Report) (municipalityFilter : Option String) :
    String :=
  if reports.isEmpty then
    "Nenhuma reportagem "
      ++ (if optTruthy municipalityFilter then "para " ++ optVal municipalityFilter ++ " " else "")
      ++ "encontrada."
  else
    let filteredReports := filteredReportsOf reports municipalityFilter
    if filteredReports.isEmpty ∧ optTruthy municipalityFilter
        ∧ jsToLower (optVal municipalityFilter) ≠ "outro"
        ∧ jsToLower (optVal municipalityFilter) ≠ "todos" then
      "Nenhuma reportagem para " ++ optVal municipalityFilter ++ " encontrada."
    else
      let message := "Reportagens "
        ++ (if optTruthy municipalityFilter
              ∧ jsToLower (optVal municipalityFilter) ≠ "todos" then
            optVal municipalityFilter
          else "Geral") ++ ":\n"
      let reportsToShow := reportsToShowOf reports municipalityFilter
      let message := reportsToShow.foldl (fun acc r => acc ++ reportEntry r) message
      let message := if reportsToShow.length < filteredReports.length then
          message ++ "Mais " ++ toString (filteredReports.length - reportsToShow.length) ++ " reportagens."
        else message
      jsTrim message

/-- A stored session (`sessions[sessionId]`): the flow tag and the
free-form `data` object, modelled as an association list (the handler
only ever writes `{}` to it). -/
structure Session where
  flow : String
  data : List (String × String)
  deriving DecidableEq

/-- The outcomes of the external collaborators for one request: whether
each client was initialized at startup, and what each awaited remote
call would return if reached. -/
structure Env where
  twilioInit : Bool
  twilioOutcome : TwilioOutcome
  aiInit : Bool
  malariaOutcome : AiOutcome
  zoneOutcome : AiOutcome

/-- One SMS send attempted by the handler (an invocation of
`sendTwilioSms` with these arguments). -/
structure SmsCall where
  dest : String
  body : String
  deriving DecidableEq

/-- What one `POST /ussd` request produces: the response text, the new
stored session for the request's session key (`none` = deleted), and
the SMS sends the handler attempted. -/
structure UssdResult where
  response : String
  session : Option Session
  sms : List SmsCall

/-- Embeds the session-validity check (`src/server.js` lines 241-244):
a missing entry, or one whose `flow` is falsy, is replaced by a fresh
`initial` session. -/
def normalizeSession : Option Session → Session
  | none => { flow := "initial", data := [] }
  | some s => if s.flow = "" then { flow := "initial", data := [] } else s

/-- The main menu text (`src/server.js` line 252). -/
def mainMenu : String :=
  "CON Bem-vindo ao USSD Service do mapaZZZ\n1. Zonas de risco\n2. Reportagens\n3. Epaludismo (Malária)\n4. Soluções de Zonas\n5. Dicas de Saúde\n6. Contactos de Emergência"

/-- Result of the two branches that reset the dialog to the menu root:
the main menu is shown and the session is set to `{flow:'menu', data:{}}`. -/
def menuReset : UssdResult :=
  { response := mainMenu, session := some { flow := "menu", data := [] }, sms := [] }

/-- Embeds the `menu` branch (`src/server.js` lines 261-284). -/
def menuStep (lastInput : String) : UssdResult :=
  if lastInput = "1" then
    { response := "CON Escolha o nível de risco:\n1. Alto\n2. Médio\n3. Baixo\n4. Todas\n5. Menu Principal",
      session := some { flow := "zones_risk_level_selection", data := [] }, sms := [] }
  else if lastInput = "2" then
    { response := "CON Município para reportagens:\n1. Belas\n2. Zango\n3. Viana\n4. Outro (Geral)\n5. Todos (Geral)\n6. Menu Principal",
      session := some { flow := "reports_municipality_selection", data := [] }, sms := [] }
  else if lastInput = "3" then
    { response := "CON Descreva os seus sintomas (ex: febre, dor de cabeça):",
      session := some { flow := "symptoms_input", data := [] }, sms := [] }
  else if lastInput = "4" then
    { response := "CON Descreva o problema na sua zona:",
      session := some { flow := "zone_problem_input", data := [] }, sms := [] }
  else if lastInput = "5" then
    { response := "CON Dicas de Saúde:\n1. Prevenção da Malária\n2. Saneamento Básico\n3. Primeiros Socorros (Básico)\n4. Menu Principal",
      session := some { flow := "health_tips_menu", data := [] }, sms := [] }
  else if lastInput = "6" then
    { response := "END Contactos Úteis:\nPolicia: 113\nBombeiros: 115\nAmbulância (INEMA): 112\nProteção Civil: 117\nViolência Doméstica: 146",
      session := none, sms := [] }
  else
    { response := "END Seleção inválida.", session := none, sms := [] }

/-- A simulated zone row (`src/server.js` lines 302-306). -/
structure SampleZone where
  location : String
  risk : String

/-- The hardcoded simulated zones (`src/server.js` lines 302-306). -/
def sampleZones : List SampleZone :=
  [⟨"Clínica CSE", "Alto"⟩, ⟨"ISPTC Talatona", "Médio"⟩, ⟨"Mercado Kifica", "Baixo"⟩]

/-- One item line of the simulated zone list (`src/server.js` line 312). -/
def sampleZoneItem (i : Nat) (z : SampleZone) : String :=
  toString (i + 1) ++ ". " ++ z.location ++ " (" ++ z.risk ++ ")"

/-- The USSD-visible simulated zone list (`src/server.js` 308-316). -/
def ussdZoneMessage : String :=
  jsTrim (sampleZones.enum.foldl
    (fun acc iz => acc ++ sampleZoneItem iz.1 iz.2 ++ "\n") "Zonas (Simulado):\n")

/-- The SMS copy of the simulated zone list (`src/server.js` 309-315). -/
def smsZoneMessage : String :=
  sampleZones.enum.foldl
    (fun acc iz => acc ++ sampleZoneItem iz.1 iz.2
      ++ (if iz.1 = sampleZones.length - 1 then "" else "\n"))
    "Zonas Risco (MapaZZZ):\n"

/-- Embeds the risk-level mapping of the `zones_risk_level_selection`
branch (`src/server.js` lines 290-294): `none` is the source's `null`
("Todas"), and the result is unused by the rest of the branch. -/
def selectedRiskLevelOf (lastInput : String) : Option String :=
  if lastInput = "1" then some "Alto"
  else if lastInput = "2" then some "Médio"
  else if lastInput = "3" then some "Baixo"
  else none

/-- Embeds the `zones_risk_level_selection` branch
(`src/server.js` lines 285-324). -/
def zonesStep (env : Env) (lastInput phoneNumber : String) : UssdResult :=
  if lastInput = "5" then menuReset
  else if lastInput = "1" ∨ lastInput = "2" ∨ lastInput = "3" ∨ lastInput = "4" then
    let c := sendTwilioSms env.twilioInit env.twilioOutcome phoneNumber smsZoneMessage
    { response := "END " ++ ussdZoneMessage ++ "\n" ++ c.msg,
      session := none, sms := [⟨phoneNumber, smsZoneMessage⟩] }
  else
    { response := "END Seleção inválida para Zonas.", session := none, sms := [] }

/-- A simulated report row (`src/server.js` lines 344-348). -/
structure SampleReport where
  title : String
  risk : String

/-- The hardcoded simulated reports (`src/server.js` lines 344-348). -/
def sampleReports : List SampleReport :=
  [⟨"Falta de Água", "Alto"⟩, ⟨"Lixo na Via", "Médio"⟩, ⟨"Poste Caído", "Alto"⟩]

/-- One item line of the simulated report list (`src/server.js` line 354). -/
def sampleReportItem (i : Nat) (r : SampleReport) : String :=
  toString (i + 1) ++ ". " ++ r.title ++ " (" ++ r.risk ++ ")"

/-- The USSD-visible simulated report list (`src/server.js` 350-358). -/
def ussdReportMessage : String :=
  jsTrim (sampleReports.enum.foldl
    (fun acc ir => acc ++ sampleReportItem ir.1 ir.2 ++ "\n") "Reportagens (Simulado):\n")

/-- The SMS copy of the simulated report list (`src/server.js` 351-357). -/
def smsReportMessage : String :=
  sampleReports.enum.foldl
    (fun acc ir => acc ++ sampleReportItem ir.1 ir.2
      ++ (if ir.1 = sampleReports.length - 1 then "" else "\n"))
    "Reportagens (MapaZZZ):\n"

/-- Embeds the `reports_municipality_selection` branch
(`src/server.js` lines 325-366). -/
def reportsStep (env : Env) (lastInput phoneNumber : String) : UssdResult :=
  if lastInput = "6" then menuReset
  else if lastInput = "1" ∨ lastInput = "2" ∨ lastInput = "3"
      ∨ lastInput = "4" ∨ lastInput = "5" then
    let c := sendTwilioSms env.twilioInit env.twilioOutcome phoneNumber smsReportMessage
    { response := "END " ++ ussdReportMessage ++ "\n" ++ c.msg,
      session := none, sms := [⟨phoneNumber, smsReportMessage⟩] }
  else
    { response := "END Seleção inválida para Reportagens.", session := none, sms := [] }

/-- The failure markers the handler sniffs in a symptom-analysis result
(`src/server.js` line 378). -/
def symptomFailureMarker (s : String) : Bool :=
  hasSubStr s "indisponível" || hasSubStr s "Erro ao analisar"
    || hasSubStr s "Nenhum sintoma fornecido"

/-- Embeds the `symptoms_input` branch (`src/server.js` lines 367-387). -/
def symptomsStep (env : Env) (lastInput phoneNumber : String) : UssdResult :=
  let symptoms := lastInput
  if jsTrim symptoms = "" then
    { response := "END Por favor, forneça uma descrição dos sintomas. Tente novamente.",
      session := none, sms := [] }
  else
    let analysisResult := getMalariaProbabilityJS env.aiInit env.malariaOutcome symptoms
    if symptomFailureMarker analysisResult then
      { response := "END " ++ analysisResult, session := none, sms := [] }
    else
      let smsBody := "Resultado da sua análise de sintomas (USSD MapaZZZ): " ++ analysisResult
      let c := sendTwilioSms env.twilioInit env.twilioOutcome phoneNumber smsBody
      { response := "END Análise: " ++ analysisResult ++ " " ++ c.msg,
        session := none, sms := [⟨phoneNumber, smsBody⟩] }

/-- The failure markers the handler sniffs in a zone-solution result
(`src/server.js` line 398). -/
def zoneFailureMarker (s : String) : Bool :=
  hasSubStr s "indisponível" || hasSubStr s "Erro ao obter"
    || hasSubStr s "Nenhuma descrição do problema"

/-- Embeds the `zone_problem_input` branch (`src/server.js` lines 388-407). -/
def zoneProblemStep (env : Env) (lastInput phoneNumber : String) : UssdResult :=
  let problemDescription := lastInput
  if jsTrim problemDescription = "" then
    { response := "END Por favor, forneça uma descrição do problema. Tente novamente.",
      session := none, sms := [] }
  else
    let solutionResult := getZoneSolutionJS env.aiInit env.zoneOutcome problemDescription
    if zoneFailureMarker solutionResult then
      { response := "END " ++ solutionResult, session := none, sms := [] }
    else
      let smsBody := "Sugestão para o problema na sua zona (USSD MapaZZZ): " ++ solutionResult
      let c := sendTwilioSms env.twilioInit env.twilioOutcome phoneNumber smsBody
      { response := "END Sugestão: " ++ solutionResult ++ " " ++ c.msg,
        session := none, sms := [⟨phoneNumber, smsBody⟩] }

/-- Embeds the `health_tips_menu` branch (`src/server.js` lines 408-434). -/
def healthTipsStep (env : Env) (lastInput phoneNumber : String) : UssdResult :=
  if lastInput = "4" then menuReset
  else if lastInput = "1" ∨ lastInput = "2" ∨ lastInput = "3" then
    let tipText :=
      if lastInput = "1" then
        "Malária: Use mosquiteiro, elimine água parada, procure médico aos primeiros sintomas."
      else if lastInput = "2" then
        "Saneamento: Mantenha quintal limpo, lixo no lugar certo, lave as mãos. Saúde!"
      else
        "1os Socorros: Queimadura leve? Água fria. Cortes? Limpe e cubra. Grave? Ajuda médica!"
    let smsBody := "Dica de Saúde (USSD MapaZZZ): " ++ tipText
    let c := sendTwilioSms env.twilioInit env.twilioOutcome phoneNumber smsBody
    { response := "END " ++ tipText ++ " " ++ c.msg,
      session := none, sms := [⟨phoneNumber, smsBody⟩] }
  else
    { response := "END Seleção inválida.", session := none, sms := [] }

/-- Embeds the dispatch chain of the `POST /ussd` handler
(`src/server.js` lines 254-439) on the normalized current flow and the
extracted last input token. -/
def ussdDispatch (env : Env) (currentFlow lastInput phoneNumber : String) : UssdResult :=
  if lastInput = "" ∧ currentFlow ≠ "initial" ∧ currentFlow ≠ "menu" then
    menuReset
  else if currentFlow = "initial" ∨ (currentFlow = "menu" ∧ lastInput = "") then
    menuReset
  else if currentFlow = "menu" then menuStep lastInput
  else if currentFlow = "zones_risk_level_selection" then zonesStep env lastInput phoneNumber
  else if currentFlow = "reports_municipality_selection" then reportsStep env lastInput phoneNumber
  else if currentFlow = "symptoms_input" then symptomsStep env lastInput phoneNumber
  else if currentFlow = "zone_problem_input" then zoneProblemStep env lastInput phoneNumber
  else if currentFlow = "health_tips_menu" then healthTipsStep env lastInput phoneNumber
  else menuReset

/-- Embeds one `POST /ussd` request (`src/server.js` lines 228-443) for
the session entry stored under the request's session key. -/
def ussdStep (env : Env) (stored : Option Session) (phoneNumber : String)
    (text : Option String) : UssdResult :=
  ussdDispatch env (normalizeSession stored).flow (extractLastInput text) phoneNumber

/-- A fully operational environment: both clients initialized, the SMS
provider delivering, the analysis service answering `"45% (Sintomas moderados.)"`
and the solution service answering `"Reporte à administração local."`. -/
def env0 : Env :=
  ⟨true, .sent "SM123", true, .success "45% (Sintomas moderados.)",
    .success "Reporte à administração local."⟩

/-- An environment whose analysis client failed to initialize. -/
def envNoAi : Env :=
  ⟨true, .sent "SM123", false, .success "45% (Sintomas moderados.)",
    .success "Reporte à administração local."⟩

/-- A 68-character description (longer than 67, not longer than 70). -/
def longDesc68 : String :=
  "aaaaaaaaaaaaaaaaaaaaaaaaaaaaaaaaaaaaaaaaaaaaaaaaaaaaaaaaaaaaaaaaaaaa"

/-- A 71-character description (longer than 70). -/
def longDesc71 : String :=
  "bbbbbbbbbbbbbbbbbbbbbbbbbbbbbbbbbbbbbbbbbbbbbbbbbbbbbbbbbbbbbbbbbbbbbbb"

/-- A report whose description is 71 characters long. -/
def report71 : Report :=
  ⟨some "Falta de Água", some longDesc71, some "Alto", none⟩

theorem splitStar_ne_nil (l : List Char) : splitStar l ≠ [] := by
  cases l with
  | nil => simp [splitStar]
  | cons c cs =>
    simp only [splitStar]
    split
    · simp
    · rcases h : splitStar cs with _ | ⟨g, gs⟩ <;> simp

theorem splitStar_of_not_mem (l : List Char) (h : '*' ∉ l) : splitStar l = [l] := by
  induction l with
  | nil => rfl
  | cons c cs ih =>
    have hc : ¬ c = '*' := fun e => h (e ▸ List.mem_cons_self c cs)
    have hcs : '*' ∉ cs := fun m => h (List.mem_cons_of_mem _ m)
    simp only [splitStar, if_neg hc, ih hcs]

theorem splitStar_cons_star (cs : List Char) :
    splitStar ('*' :: cs) = [] :: splitStar cs := by
  simp [splitStar]

theorem splitStar_cons_ne (c : Char) (cs : List Char) (hc : c ≠ '*')
    (g : List Char) (gs : List (List Char)) (h : splitStar cs = g :: gs) :
    splitStar (c :: cs) = (c :: g) :: gs := by
  simp [splitStar, hc, h]

theorem length_splitStar (l : List Char) : (splitStar l).length = l.count '*' + 1 := by
  induction l with
  | nil => rfl
  | cons c cs ih =>
    by_cases hc : c = '*'
    · subst hc
      rw [splitStar_cons_star, List.length_cons, ih, List.count_cons_self]
    · rcases h : splitStar cs with _ | ⟨g, gs⟩
      · exact absurd h (splitStar_ne_nil cs)
      · have hlen : gs.length + 1 = cs.count '*' + 1 := by
          have := ih; rw [h] at this; simpa using this
        rw [splitStar_cons_ne c cs hc g gs h, List.length_cons]
        rw [List.count_cons_of_ne (by simpa using fun e => hc e.symm)]
        omega

theorem getLastD_irrel {α : Type} (l : List α) (h : l ≠ []) (a b : α) :
    l.getLastD a = l.getLastD b := by
  cases l with
  | nil => exact absurd rfl h
  | cons x xs => rw [List.getLastD_cons, List.getLastD_cons]

theorem splitStar_getLastD_spec (l : List Char) (h : '*' ∈ l) :
    '*' ∉ (splitStar l).getLastD [] ∧
      ∃ pre, l = pre ++ '*' :: (splitStar l).getLastD [] := by
  induction l with
  | nil => cases h
  | cons c cs ih =>
    by_cases hc : c = '*'
    · subst hc
      rw [splitStar_cons_star, List.getLastD_cons]
      by_cases hcs : '*' ∈ cs
      · obtain ⟨hns, pre, hpre⟩ := ih hcs
        exact ⟨hns, '*' :: pre, by rw [List.cons_append, ← hpre]⟩
      · rw [splitStar_of_not_mem cs hcs, List.getLastD_cons, List.getLastD_nil]
        exact ⟨hcs, [], rfl⟩
    · have hcs : '*' ∈ cs := by
        rcases List.mem_cons.mp h with h' | h'
        · exact absurd h'.symm hc
        · exact h'
      rcases hsp : splitStar cs with _ | ⟨g, gs⟩
      · exact absurd hsp (splitStar_ne_nil cs)
      · have hgs : gs ≠ [] := by
          have hl := length_splitStar cs
          rw [hsp] at hl
          have hpos : 0 < cs.count '*' := List.count_pos_iff.mpr hcs
          intro e
          rw [e] at hl
          simp at hl
          omega
        rw [splitStar_cons_ne c cs hc g gs hsp, List.getLastD_cons]
        obtain ⟨hns, pre, hpre⟩ := ih hcs
        rw [hsp, List.getLastD_cons] at hns hpre
        rw [getLastD_irrel gs hgs (c :: g) g]
        exact ⟨hns, c :: pre, by rw [List.cons_append, ← hpre]⟩

/-- Claim C4: the extracted last input token is the substring after the
final `*` when `text` contains `*` (it decomposes `text` as
`pre ++ "*" ++ token` with a `*`-free token), the whole of `text` when
it contains no `*`, and the empty string when `text` is empty or absent. -/
theorem extractLastInput_spec :
    extractLastInput none = "" ∧
    extractLastInput (some "") = "" ∧
    (∀ t : String, '*' ∉ t.data → extractLastInput (some t) = t) ∧
    (∀ t : String, '*' ∈ t.data →
      '*' ∉ (extractLastInput (some t)).data ∧
        ∃ pre, t.data = pre ++ '*' :: (extractLastInput (some t)).data) := by
  refine ⟨rfl, rfl, ?_, ?_⟩
  · intro t ht
    cases t with
    | mk l =>
      cases l with
      | nil => rfl
      | cons c cs =>
        simp only [extractLastInput]
        rw [if_neg (by simp), if_neg ht]
  · intro t ht
    have hne : t.data ≠ [] := by
      intro e; rw [e] at ht; cases ht
    simp only [extractLastInput, if_neg hne, if_pos ht]
    exact splitStar_getLastD_spec t.data ht

/-- Witness for C4 at `text = "12*34"`. -/
theorem extractLastInput_spec_witness :
    '*' ∈ ("12*34" : String).data ∧
      ('*' ∉ (extractLastInput (some "12*34")).data ∧
        ∃ pre, ("12*34" : String).data = pre ++ '*' :: (extractLastInput (some "12*34")).data) :=
  ⟨by decide, extractLastInput_spec.2.2.2 "12*34" (by decide)⟩

theorem menuStep_end (input : String)
    (h : strStarts (menuStep input).response "END" = true) :
    (menuStep input).session = none := by
  unfold menuStep at h ⊢
  split_ifs at h ⊢ <;> first | rfl | exact absurd h (by decide)

theorem zonesStep_end (env : Env) (input phone : String)
    (h : strStarts (zonesStep env input phone).response "END" = true) :
    (zonesStep env input phone).session = none := by
  unfold zonesStep menuReset at h ⊢
  split_ifs at h ⊢ <;> first | rfl | exact absurd h (by decide)

theorem reportsStep_end (env : Env) (input phone : String)
    (h : strStarts (reportsStep env input phone).response "END" = true) :
    (reportsStep env input phone).session = none := by
  unfold reportsStep menuReset at h ⊢
  split_ifs at h ⊢ <;> first | rfl | exact absurd h (by decide)

theorem symptomsStep_end (env : Env) (input phone : String) :
    (symptomsStep env input phone).session = none := by
  simp only [symptomsStep]
  split_ifs <;> rfl

theorem zoneProblemStep_end (env : Env) (input phone : String) :
    (zoneProblemStep env input phone).session = none := by
  simp only [zoneProblemStep]
  split_ifs <;> rfl

theorem healthTipsStep_end (env : Env) (input phone : String)
    (h : strStarts (healthTipsStep env input phone).response "END" = true) :
    (healthTipsStep env input phone).session = none := by
  unfold healthTipsStep menuReset at h ⊢
  split_ifs at h ⊢ <;> first | rfl | exact absurd h (by decide)

theorem ussdDispatch_end_deletes (env : Env) (flow input phone : String)
    (h : strStarts (ussdDispatch env flow input phone).response "END" = true) :
    (ussdDispatch env flow input phone).session = none := by
  unfold ussdDispatch at h ⊢
  split_ifs at h ⊢ <;>
    first
      | exact menuStep_end _ h
      | exact zonesStep_end env _ _ h
      | exact reportsStep_end env _ _ h
      | exact symptomsStep_end env _ _
      | exact zoneProblemStep_end env _ _
      | exact healthTipsStep_end env _ _ h
      | exact absurd h (by decide)

/-- Claim C1: whenever the handler's response begins with `END`, the
session entry for the request's session key is deleted from the store. -/
theorem ussdStep_end_deletes_session (env : Env) (stored : Option Session)
    (phoneNumber : String) (text : Option String)
    (h : strStarts (ussdStep env stored phoneNumber text).response "END" = true) :
    (ussdStep env stored phoneNumber text).session = none := by
  unfold ussdStep at h ⊢
  exact ussdDispatch_end_deletes env _ _ _ h

/-- Witness for C1: a `menu` session answering `6` gets an `END`
response and its session is deleted. -/
theorem ussdStep_end_deletes_session_witness :
    strStarts (ussdStep env0 (some ⟨"menu", []⟩) "+244923000000" (some "1*6")).response "END"
        = true ∧
      (ussdStep env0 (some ⟨"menu", []⟩) "+244923000000" (some "1*6")).session = none :=
  ⟨by decide,
    ussdStep_end_deletes_session env0 (some ⟨"menu", []⟩) "+244923000000" (some "1*6")
      (by decide)⟩

theorem ussdDispatch_empty_nonmenu (env : Env) (flow input phone : String)
    (h : input = "") (h1 : flow ≠ "menu") :
    ussdDispatch env flow input phone = menuReset := by
  subst h
  unfold ussdDispatch
  by_cases h2 : flow = "initial"
  · rw [if_neg (by simp [h2]), if_pos (Or.inl h2)]
  · rw [if_pos ⟨rfl, h2, h1⟩]

/-- Claim C3: an empty extracted input token with a stored flow that is
neither `initial` nor `menu` resets the session to `{flow:'menu', data:{}}`
and answers with the main menu, a `CON` response. -/
theorem ussdStep_empty_input_recovery (env : Env) (sess : Session)
    (phoneNumber : String) (text : Option String)
    (h1 : sess.flow ≠ "initial") (h2 : sess.flow ≠ "menu")
    (h3 : extractLastInput text = "") :
    (ussdStep env (some sess) phoneNumber text).response = mainMenu ∧
    strStarts (ussdStep env (some sess) phoneNumber text).response "CON" = true ∧
    (ussdStep env (some sess) phoneNumber text).session
      = some { flow := "menu", data := [] } := by
  have hflow : (normalizeSession (some sess)).flow ≠ "menu" := by
    simp only [normalizeSession]
    split_ifs with h0
    · decide
    · exact h2
  unfold ussdStep
  rw [ussdDispatch_empty_nonmenu env _ _ phoneNumber h3 hflow]
  exact ⟨rfl, by decide, rfl⟩

/-- Witness for C3: a `symptoms_input` session receiving an empty token
is reset to the menu. -/
theorem ussdStep_empty_input_recovery_witness :
    (ussdStep env0 (some ⟨"symptoms_input", []⟩) "+244923000000" (some "")).response
        = mainMenu ∧
      strStarts (ussdStep env0 (some ⟨"symptoms_input", []⟩) "+244923000000"
          (some "")).response "CON" = true ∧
      (ussdStep env0 (some ⟨"symptoms_input", []⟩) "+244923000000" (some "")).session
        = some { flow := "menu", data := [] } :=
  ussdStep_empty_input_recovery env0 ⟨"symptoms_input", []⟩ "+244923000000" (some "")
    (by decide) (by decide) (by decide)

/-- Claim C9: with the analysis client uninitialized, both analysis
operations return the fixed non-empty fallback string, for every input
and every would-be remote outcome (and, being total Lean functions,
they never throw). -/
theorem aiUnavailable_fallback (outcome1 outcome2 : AiOutcome) (desc : String) :
    getMalariaProbabilityJS false outcome1 desc
        = "Serviço de IA indisponível. Verifique a configuração da API_KEY." ∧
      getZoneSolutionJS false outcome2 desc
        = "Serviço de IA indisponível. Verifique a configuração da API_KEY." ∧
      getMalariaProbabilityJS false outcome1 desc ≠ "" ∧
      getZoneSolutionJS false outcome2 desc ≠ "" := by
  refine ⟨rfl, rfl, ?_, ?_⟩
  · rw [show getMalariaProbabilityJS false outcome1 desc
        = "Serviço de IA indisponível. Verifique a configuração da API_KEY." from rfl]
    decide
  · rw [show getZoneSolutionJS false outcome2 desc
        = "Serviço de IA indisponível. Verifique a configuração da API_KEY." from rfl]
    decide

/-- Claim C8: the zone formatter renders at most 5 zone entries and the
report formatter at most 1 report entry, for inputs of any size:
`zonesToShowOf`/`reportsToShowOf` are exactly the lists of entries the
formatters render, one line per element. -/
theorem formatters_bounded :
    (∀ (zones : List Zone) (rlf : Option String), (zonesToShowOf zones rlf).length ≤ 5) ∧
      ∀ (reports : List Report) (mf : Option String),
        (reportsToShowOf reports mf).length ≤ 1 := by
  constructor
  · intro zones rlf
    simp only [zonesToShowOf, List.length_take]
    exact min_le_left _ _
  · intro reports mf
    simp only [reportsToShowOf, List.length_take]
    exact min_le_left _ _

/-- Counterexample to claim C6 as stated: `"12345"` (5 digits, first
digit 1) in fact matches the E.164-like pattern, so `sendTwilioSms`
does not reject it — it proceeds to the provider call. -/
theorem sendTwilioSms_c6_counterexample :
    e164Test "12345" = true ∧
      (sendTwilioSms true (.sent "SM123") "12345" "ola").providerCalled = true ∧
      (sendTwilioSms true (.sent "SM123") "12345" "ola").msg = "SMS enviado para 12345!" := by
  decide

/-- Claim C6 (amended): for every `to` that does not match the
E.164-like pattern (`"abc"` and `""` among them, but not `"12345"`,
which matches), `sendTwilioSms` with an initialized client returns a
validation-failure message (the missing-field message for blank inputs,
the invalid-number message otherwise) without attempting the provider
call. -/
theorem sendTwilioSms_rejects_nonmatching (outcome : TwilioOutcome) (dest body : String)
    (h : e164Test dest = false) :
    (sendTwilioSms true outcome dest body).providerCalled = false ∧
      ((sendTwilioSms true outcome dest body).msg
          = "Número do destinatário ou mensagem em falta." ∨
        (sendTwilioSms true outcome dest body).msg
          = "Número de destino (" ++ dest
            ++ ") inválido. Use formato internacional (ex: +244XXXXXXXXX).") := by
  unfold sendTwilioSms
  rw [if_neg (by simp)]
  by_cases h1 : dest = "" ∨ body = ""
  · rw [if_pos h1]
    exact ⟨rfl, Or.inl rfl⟩
  · rw [if_neg h1, if_pos h]
    exact ⟨rfl, Or.inr rfl⟩

/-- Witness for amended C6 at `to = "abc"`. -/
theorem sendTwilioSms_rejects_nonmatching_witness :
    e164Test "abc" = false ∧
      ((sendTwilioSms true (.sent "SM123") "abc" "ola").providerCalled = false ∧
        ((sendTwilioSms true (.sent "SM123") "abc" "ola").msg
            = "Número do destinatário ou mensagem em falta." ∨
          (sendTwilioSms true (.sent "SM123") "abc" "ola").msg
            = "Número de destino (" ++ "abc"
              ++ ") inválido. Use formato internacional (ex: +244XXXXXXXXX).")) :=
  ⟨by decide, sendTwilioSms_rejects_nonmatching (.sent "SM123") "abc" "ola" (by decide)⟩

/-- Counterexample to claim C7 as stated: a 68-character description
(longer than 67 characters) is displayed in full, with no ellipsis —
the code truncates only beyond 70 characters. -/
theorem formatReports_c7_counterexample :
    longDesc68.data.length = 68 ∧
      67 < longDesc68.data.length ∧
      formatReportsForUSSD [⟨some "Falta de Água", some longDesc68, some "Alto", none⟩] none
        = "Reportagens Geral:\nFalta de Água: " ++ longDesc68 ++ " (Risco: Alto)" ∧
      hasSubStr
        (formatReportsForUSSD [⟨some "Falta de Água", some longDesc68, some "Alto", none⟩]
          none) "..." = false := by
  decide

/-- Claim C7 (amended): for every report whose (defaulted) description
is longer than 70 characters, the displayed entry truncates the
description to its first 67 characters followed by `"..."`; and the
formatter's output for such a report at the head of the list displays
exactly that entry. -/
theorem reportEntry_truncates (r : Report) (rest : List Report)
    (h : 70 < (jsOr r.description "Sem descrição.").data.length) :
    reportEntry r
        = jsOr r.title "N/A" ++ ": "
          ++ (jsSubstringTo (jsOr r.description "Sem descrição.") 67 ++ "...")
          ++ " (Risco: " ++ jsOr r.riskLevel "N/D" ++ ")\n" ∧
      formatReportsForUSSD (r :: rest) none
        = jsTrim ("Reportagens Geral:\n" ++ reportEntry r
            ++ (if 1 < (r :: rest : List Report).length then
                  "Mais " ++ toString ((r :: rest : List Report).length - 1)
                    ++ " reportagens."
                else "")) := by
  constructor
  · simp only [reportEntry]
    rw [if_pos h]
  · simp only [formatReportsForUSSD, filteredReportsOf, reportsToShowOf, optTruthy]
    simp [List.take_succ_cons, List.foldl_cons, String.append_assoc]
    split_ifs <;> simp

/-- Witness for amended C7 at a 71-character description. -/
theorem reportEntry_truncates_witness :
    70 < (jsOr report71.description "Sem descrição.").data.length ∧
      (reportEntry report71
          = jsOr report71.title "N/A" ++ ": "
            ++ (jsSubstringTo (jsOr report71.description "Sem descrição.") 67 ++ "...")
            ++ " (Risco: " ++ jsOr report71.riskLevel "N/D" ++ ")\n" ∧
        formatReportsForUSSD (report71 :: []) none
          = jsTrim ("Reportagens Geral:\n" ++ reportEntry report71
              ++ (if 1 < (report71 :: [] : List Report).length then
                    "Mais " ++ toString ((report71 :: [] : List Report).length - 1)
                      ++ " reportagens."
                  else ""))) :=
  ⟨by decide, reportEntry_truncates report71 [] (by decide)⟩

/-- Counterexample to claim C2 as stated: in
`zones_risk_level_selection`, choosing `1` (the Alto filter) yields a
response that still lists Médio and Baixo entries and carries the
hardcoded simulated header rather than any risk-filtered zone list. -/
theorem zones_selection_c2_counterexample :
    (ussdStep env0 (some ⟨"zones_risk_level_selection", []⟩) "+244923000000"
        (some "1*1")).response
        = "END Zonas (Simulado):\n1. Clínica CSE (Alto)\n2. ISPTC Talatona (Médio)\n3. Mercado Kifica (Baixo)\nSMS enviado para +244923000000!" ∧
      hasSubStr (ussdStep env0 (some ⟨"zones_risk_level_selection", []⟩) "+244923000000"
        (some "1*1")).response "(Médio)" = true ∧
      hasSubStr (ussdStep env0 (some ⟨"zones_risk_level_selection", []⟩) "+244923000000"
        (some "1*1")).response "(Baixo)" = true ∧
      hasSubStr (ussdStep env0 (some ⟨"zones_risk_level_selection", []⟩) "+244923000000"
        (some "1*1")).response "Zonas de Risco Alto" = false := by
  decide

/-- Claim C2 (amended): in `zones_risk_level_selection`, every token in
1-4 maps to a risk filter that is then ignored: the handler emits the
fixed hardcoded sample list unfiltered, sends its SMS copy, deletes the
session, and returns a terminal response combining the list with the
SMS confirmation. -/
theorem zones_selection_fixed_list (env : Env) (phone : String) (tok : String)
    (h : tok = "1" ∨ tok = "2" ∨ tok = "3" ∨ tok = "4") :
    (ussdStep env (some ⟨"zones_risk_level_selection", []⟩) phone (some tok)).response
        = "END " ++ ussdZoneMessage ++ "\n"
          ++ (sendTwilioSms env.twilioInit env.twilioOutcome phone smsZoneMessage).msg ∧
      (ussdStep env (some ⟨"zones_risk_level_selection", []⟩) phone (some tok)).sms
        = [⟨phone, smsZoneMessage⟩] ∧
      (ussdStep env (some ⟨"zones_risk_level_selection", []⟩) phone (some tok)).session
        = none := by
  rcases h with h | h | h | h <;> subst h <;> exact ⟨rfl, rfl, rfl⟩

/-- Witness for amended C2 at token `2`. -/
theorem zones_selection_fixed_list_witness :
    (ussdStep env0 (some ⟨"zones_risk_level_selection", []⟩) "+244923000000"
        (some "2")).response
        = "END " ++ ussdZoneMessage ++ "\n"
          ++ (sendTwilioSms env0.twilioInit env0.twilioOutcome "+244923000000"
                smsZoneMessage).msg ∧
      (ussdStep env0 (some ⟨"zones_risk_level_selection", []⟩) "+244923000000"
        (some "2")).sms = [⟨"+244923000000", smsZoneMessage⟩] ∧
      (ussdStep env0 (some ⟨"zones_risk_level_selection", []⟩) "+244923000000"
        (some "2")).session = none :=
  zones_selection_fixed_list env0 "+244923000000" "2" (Or.inr (Or.inl rfl))

/-- Claim C10: in `zones_risk_level_selection`, any two tokens from 1-4
produce the identical USSD response body and the identical SMS sends —
the selected risk level has no influence on the output. -/
theorem zones_selection_no_influence (env : Env) (phone : String) (t1 t2 : String)
    (h1 : t1 = "1" ∨ t1 = "2" ∨ t1 = "3" ∨ t1 = "4")
    (h2 : t2 = "1" ∨ t2 = "2" ∨ t2 = "3" ∨ t2 = "4") :
    (ussdStep env (some ⟨"zones_risk_level_selection", []⟩) phone (some t1)).response
        = (ussdStep env (some ⟨"zones_risk_level_selection", []⟩) phone (some t2)).response ∧
      (ussdStep env (some ⟨"zones_risk_level_selection", []⟩) phone (some t1)).sms
        = (ussdStep env (some ⟨"zones_risk_level_selection", []⟩) phone (some t2)).sms := by
  rcases h1 with h | h | h | h <;> rcases h2 with g | g | g | g <;> subst h <;> subst g <;>
    exact ⟨rfl, rfl⟩

/-- Witness for C10 with tokens `1` (Alto) and `3` (Baixo). -/
theorem zones_selection_no_influence_witness :
    (ussdStep env0 (some ⟨"zones_risk_level_selection", []⟩) "+244923000000"
        (some "1")).response
        = (ussdStep env0 (some ⟨"zones_risk_level_selection", []⟩) "+244923000000"
            (some "3")).response ∧
      (ussdStep env0 (some ⟨"zones_risk_level_selection", []⟩) "+244923000000"
        (some "1")).sms
        = (ussdStep env0 (some ⟨"zones_risk_level_selection", []⟩) "+244923000000"
            (some "3")).sms :=
  zones_selection_no_influence env0 "+244923000000" "1" "3" (Or.inl rfl)
    (Or.inr (Or.inr (Or.inl rfl)))

/-- Counterexample to claim C5 as stated: the token `" "` is non-empty,
and the analysis adapter's value on it would carry a failure marker, yet
the handler answers with its own blank-input message, not with the
analysis message — the code branches on the trimmed token, not on
non-emptiness. -/
theorem symptoms_c5_counterexample :
    extractLastInput (some " ") ≠ "" ∧
      symptomFailureMarker (getMalariaProbabilityJS env0.aiInit env0.malariaOutcome
        (extractLastInput (some " "))) = true ∧
      (ussdStep env0 (some ⟨"symptoms_input", []⟩) "+244923000000" (some " ")).response
        ≠ "END " ++ getMalariaProbabilityJS env0.aiInit env0.malariaOutcome
            (extractLastInput (some " ")) ∧
      (ussdStep env0 (some ⟨"symptoms_input", []⟩) "+244923000000" (some " ")).response
        = "END Por favor, forneça uma descrição dos sintomas. Tente novamente." := by
  decide

theorem ussdDispatch_symptoms (env : Env) (input phone : String) (h : input ≠ "") :
    ussdDispatch env "symptoms_input" input phone = symptomsStep env input phone := by
  unfold ussdDispatch
  rw [if_neg fun hc => h hc.1]
  rw [if_neg (by rintro (e | ⟨e, _⟩) <;> exact absurd e (by decide))]
  rw [if_neg (by decide), if_neg (by decide), if_neg (by decide), if_pos rfl]

theorem ussdDispatch_zoneProblem (env : Env) (input phone : String) (h : input ≠ "") :
    ussdDispatch env "zone_problem_input" input phone = zoneProblemStep env input phone := by
  unfold ussdDispatch
  rw [if_neg fun hc => h hc.1]
  rw [if_neg (by rintro (e | ⟨e, _⟩) <;> exact absurd e (by decide))]
  rw [if_neg (by decide), if_neg (by decide), if_neg (by decide), if_neg (by decide),
    if_pos rfl]

theorem ussdStep_flow_symptoms (env : Env) (phone : String) (text : Option String)
    (h : extractLastInput text ≠ "") :
    ussdStep env (some ⟨"symptoms_input", []⟩) phone text
      = symptomsStep env (extractLastInput text) phone := by
  unfold ussdStep
  rw [show (normalizeSession (some ⟨"symptoms_input", []⟩)).flow = "symptoms_input" from rfl]
  exact ussdDispatch_symptoms env _ phone h

theorem ussdStep_flow_zoneProblem (env : Env) (phone : String) (text : Option String)
    (h : extractLastInput text ≠ "") :
    ussdStep env (some ⟨"zone_problem_input", []⟩) phone text
      = zoneProblemStep env (extractLastInput text) phone := by
  unfold ussdStep
  rw [show (normalizeSession (some ⟨"zone_problem_input", []⟩)).flow
      = "zone_problem_input" from rfl]
  exact ussdDispatch_zoneProblem env _ phone h

/-- Claim C5 (amended): in `symptoms_input` and `zone_problem_input`
with a non-blank token (non-empty after trimming): when the analysis
result carries a failure marker the handler answers `END` with that
message alone and attempts no SMS; otherwise it sends an SMS echoing
the result and answers `END` with the analysis text concatenated with
the SMS adapter's confirmation text.  Either way the session is
deleted. -/
theorem analysis_failure_markers (env : Env) (phone : String) (text : Option String)
    (h : jsTrim (extractLastInput text) ≠ "") :
    ((symptomFailureMarker (getMalariaProbabilityJS env.aiInit env.malariaOutcome
          (extractLastInput text)) = true →
        (ussdStep env (some ⟨"symptoms_input", []⟩) phone text).response
            = "END " ++ getMalariaProbabilityJS env.aiInit env.malariaOutcome
                (extractLastInput text) ∧
          (ussdStep env (some ⟨"symptoms_input", []⟩) phone text).sms = [] ∧
          (ussdStep env (some ⟨"symptoms_input", []⟩) phone text).session = none) ∧
      (symptomFailureMarker (getMalariaProbabilityJS env.aiInit env.malariaOutcome
          (extractLastInput text)) = false →
        (ussdStep env (some ⟨"symptoms_input", []⟩) phone text).sms
            = [⟨phone, "Resultado da sua análise de sintomas (USSD MapaZZZ): "
                ++ getMalariaProbabilityJS env.aiInit env.malariaOutcome
                    (extractLastInput text)⟩] ∧
          (ussdStep env (some ⟨"symptoms_input", []⟩) phone text).response
            = "END Análise: " ++ getMalariaProbabilityJS env.aiInit env.malariaOutcome
                  (extractLastInput text)
                ++ " " ++ (sendTwilioSms env.twilioInit env.twilioOutcome phone
                  ("Resultado da sua análise de sintomas (USSD MapaZZZ): "
                    ++ getMalariaProbabilityJS env.aiInit env.malariaOutcome
                        (extractLastInput text))).msg ∧
          (ussdStep env (some ⟨"symptoms_input", []⟩) phone text).session = none)) ∧
      ((zoneFailureMarker (getZoneSolutionJS env.aiInit env.zoneOutcome
          (extractLastInput text)) = true →
        (ussdStep env (some ⟨"zone_problem_input", []⟩) phone text).response
            = "END " ++ getZoneSolutionJS env.aiInit env.zoneOutcome
                (extractLastInput text) ∧
          (ussdStep env (some ⟨"zone_problem_input", []⟩) phone text).sms = [] ∧
          (ussdStep env (some ⟨"zone_problem_input", []⟩) phone text).session = none) ∧
      (zoneFailureMarker (getZoneSolutionJS env.aiInit env.zoneOutcome
          (extractLastInput text)) = false →
        (ussdStep env (some ⟨"zone_problem_input", []⟩) phone text).sms
            = [⟨phone, "Sugestão para o problema na sua zona (USSD MapaZZZ): "
                ++ getZoneSolutionJS env.aiInit env.zoneOutcome (extractLastInput text)⟩] ∧
          (ussdStep env (some ⟨"zone_problem_input", []⟩) phone text).response
            = "END Sugestão: " ++ getZoneSolutionJS env.aiInit env.zoneOutcome
                  (extractLastInput text)
                ++ " " ++ (sendTwilioSms env.twilioInit env.twilioOutcome phone
                  ("Sugestão para o problema na sua zona (USSD MapaZZZ): "
                    ++ getZoneSolutionJS env.aiInit env.zoneOutcome
                        (extractLastInput text))).msg ∧
          (ussdStep env (some ⟨"zone_problem_input", []⟩) phone text).session = none)) := by
  have hin : extractLastInput text ≠ "" := by
    intro e
    exact h (by rw [e]; rfl)
  rw [ussdStep_flow_symptoms env phone text hin, ussdStep_flow_zoneProblem env phone text hin]
  simp only [symptomsStep, zoneProblemStep]
  rw [if_neg h, if_neg h]
  refine ⟨⟨?_, ?_⟩, ?_, ?_⟩ <;> intro hm
  · rw [if_pos hm]
    exact ⟨rfl, rfl, rfl⟩
  · rw [if_neg (by rw [hm]; exact Bool.false_ne_true)]
    exact ⟨rfl, rfl, rfl⟩
  · rw [if_pos hm]
    exact ⟨rfl, rfl, rfl⟩
  · rw [if_neg (by rw [hm]; exact Bool.false_ne_true)]
    exact ⟨rfl, rfl, rfl⟩

/-- Witness for amended C5: with the analysis client uninitialized and
input `"febre"`, the marker branch fires and the handler passes the
fallback through as the sole terminal message with no SMS. -/
theorem analysis_failure_markers_witness :
    jsTrim (extractLastInput (some "febre")) ≠ "" ∧
      symptomFailureMarker (getMalariaProbabilityJS envNoAi.aiInit envNoAi.malariaOutcome
        (extractLastInput (some "febre"))) = true ∧
      ((ussdStep envNoAi (some ⟨"symptoms_input", []⟩) "+244923000000"
          (some "febre")).response
          = "END " ++ getMalariaProbabilityJS envNoAi.aiInit envNoAi.malariaOutcome
              (extractLastInput (some "febre")) ∧
        (ussdStep envNoAi (some ⟨"symptoms_input", []⟩) "+244923000000"
          (some "febre")).sms = [] ∧
        (ussdStep envNoAi (some ⟨"symptoms_input", []⟩) "+244923000000"
          (some "febre")).session = none) :=
  ⟨by decide, by decide,
    (analysis_failure_markers envNoAi "+244923000000" (some "febre") (by decide)).1.1
      (by decide)⟩
